import Mathlib

/-!
Verification of the rate-limiting / backoff controller and the secure
credential-storage layer of the React-Native OAuth Firebase login template.

The embedding follows `src/utils/delay.js` and `src/utils/storage.js`.
JavaScript numbers appearing here are non-negative integers (attempt counts,
epoch-millisecond timestamps, delays), so they are modelled as `Nat`; the
only division in the source, `Math.ceil((cooldownEnd - now) / 1000 / 60)`,
is modelled as exact ceiling division on `Nat`.  `AsyncStorage` /
`SecureStore` are modelled as an explicit key-value state threaded through
the operations; a backend call either yields a value or throws, which the
embedding renders as `Except`.
-/

namespace OAuthTemplate

/-- Shape of `RATE_LIMIT_CONFIG` from `delay.js`. -/
structure RateLimitConfig where
  MAX_LOGIN_ATTEMPTS : Nat
  MAX_REGISTER_ATTEMPTS : Nat
  LOGIN_COOLDOWN_MINUTES : Nat
  REGISTER_COOLDOWN_MINUTES : Nat
  BASE_DELAY_MS : Nat
  MAX_DELAY_MS : Nat
deriving DecidableEq

/-- The concrete configuration object of `delay.js`. -/
def RATE_LIMIT_CONFIG : RateLimitConfig :=
  { MAX_LOGIN_ATTEMPTS := 5
    MAX_REGISTER_ATTEMPTS := 3
    LOGIN_COOLDOWN_MINUTES := 15
    REGISTER_COOLDOWN_MINUTES := 5
    BASE_DELAY_MS := 1000
    MAX_DELAY_MS := 10000 }

/-- Embedding of `calculateBackoffDelay(attemptCount, baseDelay, maxDelay)`:
`Math.min(baseDelay * Math.pow(2, attemptCount - 1), maxDelay)`.
Callers in `delay.js` only invoke it with `attemptCount ≥ 1`, where
`Nat` subtraction agrees with the JavaScript arithmetic. -/
def calculateBackoffDelay (attemptCount : Nat)
    (baseDelay : Nat := RATE_LIMIT_CONFIG.BASE_DELAY_MS)
    (maxDelay : Nat := RATE_LIMIT_CONFIG.MAX_DELAY_MS) : Nat :=
  let exponentialDelay := baseDelay * 2 ^ (attemptCount - 1)
  min exponentialDelay maxDelay

/-- The parsed attempt record produced by `getAttemptData`:
`{count, lastAttempt}` where `lastAttempt` is a timestamp (epoch ms) or
`null` (the stored JSON may lack the field, in which case
`parsed.lastAttempt ? new Date(...) : null` yields `null`). -/
structure AttemptData where
  count : Nat
  lastAttempt : Option Nat
deriving DecidableEq

/-- Embedding of `getAttemptData(key)`: the storage slot for the key holds either a
serialized record or nothing; a missing slot (and likewise a read error,
caught and logged in the source) degrades to `{count: 0, lastAttempt: null}`. -/
def getAttemptData (slot : Option AttemptData) : AttemptData :=
  match slot with
  | some d => d
  | none => { count := 0, lastAttempt := none }

/-- Result record of `checkLoginRateLimit` / `checkRegisterRateLimit`. -/
structure RateLimitResult where
  isLimited : Bool
  waitTime : Nat
  message : String
deriving DecidableEq

/-- Exact ceiling division on naturals, modelling
`Math.ceil((cooldownEndTime - now) / 1000 / 60)`. -/
def ceilDiv (a b : Nat) : Nat := (a + b - 1) / b

/-- Common body of `checkLoginRateLimit` and `checkRegisterRateLimit`:
reads the attempt slot; when `count >= maxAttempts && lastAttempt` and the
cooldown window is still active, reports limited with the remaining wait in
minutes; when the window has elapsed it removes the stored record (lazy
reset); otherwise it reports not limited and leaves the slot untouched.
Returns the result together with the slot state after the call. -/
def checkRateLimitWith (maxAttempts cooldownMinutes : Nat) (kindWord : String)
    (slot : Option AttemptData) (now : Nat) :
    RateLimitResult × Option AttemptData :=
  let d := getAttemptData slot
  if d.count ≥ maxAttempts then
    match d.lastAttempt with
    | some t =>
      let cooldownEndTime := t + cooldownMinutes * 60 * 1000
      if now < cooldownEndTime then
        let waitTime := ceilDiv (cooldownEndTime - now) 60000
        ({ isLimited := true
           waitTime := waitTime
           message := "Too many " ++ kindWord ++ " attempts. Please wait "
             ++ toString waitTime ++ " minutes before trying again." },
         slot)
      else
        ({ isLimited := false, waitTime := 0, message := "" }, none)
    | none => ({ isLimited := false, waitTime := 0, message := "" }, slot)
  else ({ isLimited := false, waitTime := 0, message := "" }, slot)

/-- Embedding of `checkLoginRateLimit()` over the login attempt slot. -/
def checkLoginRateLimit (slot : Option AttemptData) (now : Nat) :
    RateLimitResult × Option AttemptData :=
  checkRateLimitWith RATE_LIMIT_CONFIG.MAX_LOGIN_ATTEMPTS
    RATE_LIMIT_CONFIG.LOGIN_COOLDOWN_MINUTES "login" slot now

/-- Embedding of `checkRegisterRateLimit()` over the register attempt slot. -/
def checkRegisterRateLimit (slot : Option AttemptData) (now : Nat) :
    RateLimitResult × Option AttemptData :=
  checkRateLimitWith RATE_LIMIT_CONFIG.MAX_REGISTER_ATTEMPTS
    RATE_LIMIT_CONFIG.REGISTER_COOLDOWN_MINUTES "registration" slot now

/-- Common body of `recordLoginAttempt` / `recordRegisterAttempt`
(`isSuccess` defaults to `false` in the source).  On success the slot is
removed and no delay happens.  On failure the slot becomes
`{count + 1, now}` (`storeAttemptData` always stores a present timestamp)
and, exactly when the new count exceeds 1, the caller is suspended for
`calculateBackoffDelay(newCount)` milliseconds.  Returns the slot after the
call together with the awaited delay in milliseconds. -/
def recordAttemptWith (slot : Option AttemptData) (now : Nat)
    (isSuccess : Bool) : Option AttemptData × Nat :=
  let count := (getAttemptData slot).count
  if isSuccess then (none, 0)
  else
    let newCount := count + 1
    let slotAfter : Option AttemptData := some { count := newCount, lastAttempt := some now }
    (slotAfter, if newCount > 1 then calculateBackoffDelay newCount else 0)

/-- Embedding of `recordLoginAttempt(isSuccess)` acting on the login attempt slot. -/
def recordLoginAttempt (slot : Option AttemptData) (now : Nat)
    (isSuccess : Bool) : Option AttemptData × Nat :=
  recordAttemptWith slot now isSuccess

/-- Embedding of `recordRegisterAttempt(isSuccess)` acting on the register attempt slot. -/
def recordRegisterAttempt (slot : Option AttemptData) (now : Nat)
    (isSuccess : Bool) : Option AttemptData × Nat :=
  recordAttemptWith slot now isSuccess

/-- A sequence of consecutive failed login attempts at the given timestamps,
starting from `slot`, with no intervening success. -/
def recordLoginFailures (slot : Option AttemptData) (times : List Nat) :
    Option AttemptData :=
  times.foldl (fun s t => (recordLoginAttempt s t false).1) slot

/-!
Embedding of `src/utils/storage.js`.  The platform-selected backend
(`SecureStore` on mobile, `AsyncStorage` on web) is the same abstract
string-keyed store either way: a map from keys to optional string values
plus, for each primitive operation, a possible thrown error per key.
A backend primitive either succeeds or throws the configured error; the
wrappers in `storage.js` decide what to do with a thrown error.
-/

/-- The platform key-value backend: the persisted map plus, per key, the
error each primitive would throw there (`none` = the call succeeds). -/
structure Backend where
  store : String → Option String
  getErr : String → Option String
  setErr : String → Option String
  removeErr : String → Option String

/-- Shape of `STORAGE_KEYS` from `storage.js`. -/
structure StorageKeys where
  ACCESS_TOKEN : String
  REFRESH_TOKEN : String
  USER_DATA : String
  LAST_LOGIN : String

/-- The concrete key strings of `storage.js`. -/
def STORAGE_KEYS : StorageKeys :=
  { ACCESS_TOKEN := "auth_access_token"
    REFRESH_TOKEN := "auth_refresh_token"
    USER_DATA := "auth_user_data"
    LAST_LOGIN := "auth_last_login" }

/-- The backend primitive `getItem(key)`: throws or returns the stored
value (`null` when absent). -/
def backendGetItem (b : Backend) (key : String) : Except String (Option String) :=
  match b.getErr key with
  | some e => Except.error e
  | none => Except.ok (b.store key)

/-- The backend primitive `setItem(key, value)`: throws or returns the
updated backend. -/
def backendSetItem (b : Backend) (key value : String) : Except String Backend :=
  match b.setErr key with
  | some e => Except.error e
  | none =>
    Except.ok { b with store := fun k => if k = key then some value else b.store k }

/-- The backend primitive `removeItem(key)` / `deleteItemAsync(key)`:
throws or returns the updated backend. -/
def backendRemoveItem (b : Backend) (key : String) : Except String Backend :=
  match b.removeErr key with
  | some e => Except.error e
  | none =>
    Except.ok { b with store := fun k => if k = key then none else b.store k }

/-- Embedding of `setSecureItem(key, value)`: calls the backend `setItem`; the catch
block logs and re-throws, so a backend failure propagates to the caller. -/
def setSecureItem (b : Backend) (key value : String) : Except String Backend :=
  match backendSetItem b key value with
  | Except.ok b2 => Except.ok b2
  | Except.error e => Except.error e

/-- Embedding of `getSecureItem(key)`: calls the backend `getItem`; the catch block logs
and returns `null`, so a backend failure resolves to absent. -/
def getSecureItem (b : Backend) (key : String) : Except String (Option String) :=
  match backendGetItem b key with
  | Except.ok v => Except.ok v
  | Except.error _ => Except.ok none

/-- Embedding of `removeSecureItem(key)`: calls the backend `removeItem`; the catch
block logs and re-throws, so a backend failure propagates to the caller. -/
def removeSecureItem (b : Backend) (key : String) : Except String Backend :=
  match backendRemoveItem b key with
  | Except.ok b2 => Except.ok b2
  | Except.error e => Except.error e

/-- Embedding of `storeTokens(accessToken, refreshToken)`: writes both tokens plus a
fresh last-login timestamp string; `Promise.all` rejects when any write
rejects, modelled by chaining in `Except`. -/
def storeTokens (b : Backend) (accessToken refreshToken nowIso : String) :
    Except String Backend := do
  let b1 ← setSecureItem b STORAGE_KEYS.ACCESS_TOKEN accessToken
  let b2 ← setSecureItem b1 STORAGE_KEYS.REFRESH_TOKEN refreshToken
  let b3 ← setSecureItem b2 STORAGE_KEYS.LAST_LOGIN nowIso
  pure b3

/-- Embedding of `getTokens()`: reads both tokens through `getSecureItem`; the outer
catch returns `{null, null}` (in the embedding `getSecureItem` never
errors, so the catch branch is dead, as in the source). -/
def getTokens (b : Backend) : Option String × Option String :=
  match getSecureItem b STORAGE_KEYS.ACCESS_TOKEN,
        getSecureItem b STORAGE_KEYS.REFRESH_TOKEN with
  | Except.ok accessToken, Except.ok refreshToken => (accessToken, refreshToken)
  | _, _ => (none, none)

/-- Embedding of `storeUserData(userData)`: serializes the profile and writes it;
`JSON.stringify` is modelled as the identity on the already-serialized
form, since the core treats the profile as opaque. -/
def storeUserData (b : Backend) (userData : String) : Except String Backend :=
  setSecureItem b STORAGE_KEYS.USER_DATA userData

/-- Embedding of `getUserData()`: reads the serialized profile; an absent value yields
`null`, and the catch branch (a `JSON.parse` failure) also yields `null`.
`JSON.parse` is modelled as the identity on the stored serialized form. -/
def getUserData (b : Backend) : Option String :=
  match getSecureItem b STORAGE_KEYS.USER_DATA with
  | Except.ok (some s) => some s
  | Except.ok none => none
  | Except.error _ => none

/-- Embedding of `clearAuthData()`: removes tokens, profile and last-login;
`Promise.all` rejects when any removal rejects, modelled by chaining in
`Except`; the catch block logs and re-throws. -/
def clearAuthData (b : Backend) : Except String Backend := do
  let b1 ← removeSecureItem b STORAGE_KEYS.ACCESS_TOKEN
  let b2 ← removeSecureItem b1 STORAGE_KEYS.REFRESH_TOKEN
  let b3 ← removeSecureItem b2 STORAGE_KEYS.USER_DATA
  let b4 ← removeSecureItem b3 STORAGE_KEYS.LAST_LOGIN
  pure b4

/-- A backend on which every primitive operation throws. -/
def failingBackend : Backend :=
  { store := fun _ => none
    getErr := fun _ => some "backend failure"
    setErr := fun _ => some "backend failure"
    removeErr := fun _ => some "backend failure" }

/-- A backend that holds a value under every key and never throws. -/
def populatedBackend : Backend :=
  { store := fun _ => some "x"
    getErr := fun _ => none
    setErr := fun _ => none
    removeErr := fun _ => none }

/-- The state of `populatedBackend` after the four removals issued by
`clearAuthData` (spelled as the removals leave it, innermost first). -/
def populatedBackendCleared : Backend :=
  { store := fun k =>
      if k = STORAGE_KEYS.LAST_LOGIN then none
      else if k = STORAGE_KEYS.USER_DATA then none
      else if k = STORAGE_KEYS.REFRESH_TOKEN then none
      else if k = STORAGE_KEYS.ACCESS_TOKEN then none
      else populatedBackend.store k
    getErr := fun _ => none
    setErr := fun _ => none
    removeErr := fun _ => none }

/-- The state of `populatedBackend` after the three writes issued by
`storeTokens(a, r)` at timestamp string `iso` (innermost write first). -/
def populatedBackendTokens : Backend :=
  { store := fun k =>
      if k = STORAGE_KEYS.LAST_LOGIN then some "iso"
      else if k = STORAGE_KEYS.REFRESH_TOKEN then some "r"
      else if k = STORAGE_KEYS.ACCESS_TOKEN then some "a"
      else populatedBackend.store k
    getErr := fun _ => none
    setErr := fun _ => none
    removeErr := fun _ => none }

end OAuthTemplate

namespace OAuthTemplate

/-- A successful `setSecureItem` updates exactly the written key and keeps
the per-key failure behaviour of the backend. -/
theorem setSecureItem_ok {b b2 : Backend} {key value : String}
    (h : setSecureItem b key value = Except.ok b2) :
    b2.store = (fun k => if k = key then some value else b.store k) ∧
    b2.getErr = b.getErr ∧ b2.setErr = b.setErr ∧ b2.removeErr = b.removeErr := by
  unfold setSecureItem backendSetItem at h
  cases hs : b.setErr key with
  | some e => rw [hs] at h; cases h
  | none =>
    rw [hs] at h
    simp only [Except.ok.injEq] at h
    subst h
    exact ⟨rfl, rfl, rfl, rfl⟩

/-- A successful `removeSecureItem` clears exactly the removed key and
keeps the per-key failure behaviour of the backend. -/
theorem removeSecureItem_ok {b b2 : Backend} {key : String}
    (h : removeSecureItem b key = Except.ok b2) :
    b2.store = (fun k => if k = key then none else b.store k) ∧
    b2.getErr = b.getErr ∧ b2.setErr = b.setErr ∧ b2.removeErr = b.removeErr := by
  unfold removeSecureItem backendRemoveItem at h
  cases hs : b.removeErr key with
  | some e => rw [hs] at h; cases h
  | none =>
    rw [hs] at h
    simp only [Except.ok.injEq] at h
    subst h
    exact ⟨rfl, rfl, rfl, rfl⟩

/-- C1: for every `attemptCount ≥ 1` the backoff calculator returns
`min (base * 2 ^ (attemptCount - 1)) max`, and the concrete values at
`(1, 1000, 10000)`, `(4, 1000, 10000)` and `(5, 1000, 10000)` are `1000`,
`8000` and `10000` (capped at the maximum). -/
theorem calculateBackoffDelay_eq_min_cap (attemptCount baseDelay maxDelay : Nat)
    (h : 1 ≤ attemptCount) :
    calculateBackoffDelay attemptCount baseDelay maxDelay
        = min (baseDelay * 2 ^ (attemptCount - 1)) maxDelay ∧
    calculateBackoffDelay 1 1000 10000 = 1000 ∧
    calculateBackoffDelay 4 1000 10000 = 8000 ∧
    calculateBackoffDelay 5 1000 10000 = 10000 :=
  ⟨rfl, by decide, by decide, by decide⟩

theorem calculateBackoffDelay_eq_min_cap_witness :
    calculateBackoffDelay 1 1000 10000 = min (1000 * 2 ^ (1 - 1)) 10000 ∧
    calculateBackoffDelay 1 1000 10000 = 1000 ∧
    calculateBackoffDelay 4 1000 10000 = 8000 ∧
    calculateBackoffDelay 5 1000 10000 = 10000 :=
  calculateBackoffDelay_eq_min_cap 1 1000 10000 (by decide)

/-- C9 counterexample: at `attemptCount = 1` with `base = 2000` and
`max = 1000` the calculator returns the cap `1000`, not the base `2000`,
so "returns exactly base for every base and max" fails. -/
theorem backoffDelay_one_not_base :
    calculateBackoffDelay 1 2000 1000 = 1000 ∧
    calculateBackoffDelay 1 2000 1000 ≠ 2000 := by
  exact ⟨by decide, by decide⟩

/-- C9 amended: at `attemptCount = 1` the calculator returns
`min base max`, which equals `base` whenever `base ≤ max`. -/
theorem backoffDelay_one_eq_base_of_le (baseDelay maxDelay : Nat)
    (h : baseDelay ≤ maxDelay) :
    calculateBackoffDelay 1 baseDelay maxDelay = baseDelay := by
  unfold calculateBackoffDelay
  simp [min_eq_left, h]

theorem backoffDelay_one_eq_base_of_le_witness :
    calculateBackoffDelay 1 1000 10000 = 1000 :=
  backoffDelay_one_eq_base_of_le 1000 10000 (by decide)

end OAuthTemplate
namespace OAuthTemplate

/-- C2: five consecutive failed login attempts from an absent record, with
no intervening success, leave the check immediately afterwards limited with
a 15-minute wait; and whenever a login check is limited, its wait time is
the ceiling of `(lastAttempt + cooldown - now) / 60000`. -/
theorem loginRateLimit_after_five_failures (t1 t2 t3 t4 t5 : Nat) :
    ((checkLoginRateLimit (recordLoginFailures none [t1, t2, t3, t4, t5]) t5).1.isLimited = true ∧
     (checkLoginRateLimit (recordLoginFailures none [t1, t2, t3, t4, t5]) t5).1.waitTime = 15) ∧
    ∀ (slot : Option AttemptData) (now : Nat),
      (checkLoginRateLimit slot now).1.isLimited = true →
      ∃ t, (getAttemptData slot).lastAttempt = some t ∧
        (checkLoginRateLimit slot now).1.waitTime =
          ceilDiv (t + RATE_LIMIT_CONFIG.LOGIN_COOLDOWN_MINUTES * 60 * 1000 - now) 60000 := by
  constructor
  · have hs : recordLoginFailures none [t1, t2, t3, t4, t5]
        = some { count := 5, lastAttempt := some t5 } := rfl
    rw [hs]
    have hlt : t5 < t5 + 900000 := by omega
    have hsub : t5 + 900000 - t5 = 900000 := by omega
    constructor
    · simp [checkLoginRateLimit, checkRateLimitWith, getAttemptData, RATE_LIMIT_CONFIG, hlt]
    · simp [checkLoginRateLimit, checkRateLimitWith, getAttemptData, RATE_LIMIT_CONFIG,
        hlt, hsub, ceilDiv]
  · intro slot now hlim
    rcases slot with _ | ⟨c, la⟩
    · simp [checkLoginRateLimit, checkRateLimitWith, getAttemptData, RATE_LIMIT_CONFIG] at hlim
    · rcases la with _ | t
      · simp [checkLoginRateLimit, checkRateLimitWith, getAttemptData, RATE_LIMIT_CONFIG] at hlim
      · refine ⟨t, rfl, ?_⟩
        by_cases hc : RATE_LIMIT_CONFIG.MAX_LOGIN_ATTEMPTS ≤ c
        · by_cases hn : now < t + RATE_LIMIT_CONFIG.LOGIN_COOLDOWN_MINUTES * 60 * 1000
          · simp [checkLoginRateLimit, checkRateLimitWith, getAttemptData, hc, hn]
          · simp [checkLoginRateLimit, checkRateLimitWith, getAttemptData, hc, hn] at hlim
        · simp [checkLoginRateLimit, checkRateLimitWith, getAttemptData, hc] at hlim

theorem loginRateLimit_after_five_failures_witness :
    ((checkLoginRateLimit (recordLoginFailures none [0, 1, 2, 3, 4]) 4).1.isLimited = true ∧
     (checkLoginRateLimit (recordLoginFailures none [0, 1, 2, 3, 4]) 4).1.waitTime = 15) ∧
    (∃ t, (getAttemptData (some { count := 5, lastAttempt := some 0 })).lastAttempt = some t ∧
      (checkLoginRateLimit (some { count := 5, lastAttempt := some 0 }) 1).1.waitTime =
        ceilDiv (t + RATE_LIMIT_CONFIG.LOGIN_COOLDOWN_MINUTES * 60 * 1000 - 1) 60000) :=
  ⟨(loginRateLimit_after_five_failures 0 1 2 3 4).1,
   (loginRateLimit_after_five_failures 0 1 2 3 4).2
     (some { count := 5, lastAttempt := some 0 }) 1 (by decide)⟩

/-- C4 counterexample: with a stored record `{count := 5, lastAttempt := 0}`
checked at `now = 900000` (cooldown expired), the login check returns
`isLimited = false` yet deletes the stored record, so a not-limited check is
not free of side effects. -/
theorem checkRateLimit_notLimited_mutates :
    (checkLoginRateLimit (some { count := 5, lastAttempt := some 0 }) 900000).1.isLimited = false ∧
    (checkLoginRateLimit (some { count := 5, lastAttempt := some 0 }) 900000).2
      ≠ some { count := 5, lastAttempt := some 0 } := by
  decide

/-- C4 amended: a rate-limit check (login or register instance of
`checkRateLimitWith`) that returns `isLimited = false` leaves the stored
state unchanged, unless the record has reached the maximum with a present
`lastAttempt` whose cooldown has expired, in which case the record is
deleted (lazy reset). -/
theorem checkRateLimit_notLimited_frame (maxAttempts cooldownMinutes : Nat)
    (kindWord : String) (slot : Option AttemptData) (now : Nat)
    (h : (checkRateLimitWith maxAttempts cooldownMinutes kindWord slot now).1.isLimited = false) :
    (checkRateLimitWith maxAttempts cooldownMinutes kindWord slot now).2 = slot ∨
    ((getAttemptData slot).count ≥ maxAttempts ∧
     ∃ t, (getAttemptData slot).lastAttempt = some t ∧
       t + cooldownMinutes * 60 * 1000 ≤ now ∧
       (checkRateLimitWith maxAttempts cooldownMinutes kindWord slot now).2 = none) := by
  by_cases hc : maxAttempts ≤ (getAttemptData slot).count
  · rcases hla : (getAttemptData slot).lastAttempt with _ | t
    · left
      simp [checkRateLimitWith, hc, hla]
    · by_cases hn : now < t + cooldownMinutes * 60 * 1000
      · left
        simp [checkRateLimitWith, hc, hla, hn]
      · right
        exact ⟨hc, t, rfl, Nat.le_of_not_lt hn,
          by simp [checkRateLimitWith, hc, hla, hn]⟩
  · left
    simp [checkRateLimitWith, hc]

theorem checkRateLimit_notLimited_frame_witness :
    (checkRateLimitWith 5 15 "login" (some { count := 2, lastAttempt := some 0 }) 7).2
      = some { count := 2, lastAttempt := some 0 } ∨
    ((getAttemptData (some { count := 2, lastAttempt := some 0 })).count ≥ 5 ∧
     ∃ t, (getAttemptData (some { count := 2, lastAttempt := some 0 })).lastAttempt = some t ∧
       t + 15 * 60 * 1000 ≤ 7 ∧
       (checkRateLimitWith 5 15 "login" (some { count := 2, lastAttempt := some 0 }) 7).2 = none) :=
  checkRateLimit_notLimited_frame 5 15 "login"
    (some { count := 2, lastAttempt := some 0 }) 7 (by decide)

/-- C5: when the stored login attempt count has reached the maximum and the
cooldown has elapsed (`lastAttempt + cooldown ≤ now`), the next login check
returns not limited and deletes the stored record (lazy reset). -/
theorem checkLoginRateLimit_cooldown_expired_reset (c t now : Nat)
    (hc : c ≥ RATE_LIMIT_CONFIG.MAX_LOGIN_ATTEMPTS)
    (ht : t + RATE_LIMIT_CONFIG.LOGIN_COOLDOWN_MINUTES * 60 * 1000 ≤ now) :
    checkLoginRateLimit (some { count := c, lastAttempt := some t }) now
      = ({ isLimited := false, waitTime := 0, message := "" }, none) := by
  have hn : ¬ now < t + RATE_LIMIT_CONFIG.LOGIN_COOLDOWN_MINUTES * 60 * 1000 :=
    Nat.not_lt.mpr ht
  simp [checkLoginRateLimit, checkRateLimitWith, getAttemptData, hc, hn]

theorem checkLoginRateLimit_cooldown_expired_reset_witness :
    checkLoginRateLimit (some { count := 5, lastAttempt := some 0 }) 900000
      = ({ isLimited := false, waitTime := 0, message := "" }, none) :=
  checkLoginRateLimit_cooldown_expired_reset 5 0 900000 (by decide) (by decide)

end OAuthTemplate
namespace OAuthTemplate

/-- C6: recording a successful attempt deletes the stored record (also when
it was already absent) with no delay; recording a failed attempt persists
`{count + 1, now}` and incurs the backoff delay for the new count exactly
when the new count exceeds one, the first failure incurring no delay. -/
theorem recordAttempt_semantics (slot : Option AttemptData) (now : Nat) :
    recordLoginAttempt slot now true = (none, 0) ∧
    recordRegisterAttempt slot now true = (none, 0) ∧
    (recordLoginAttempt slot now false).1
      = some { count := (getAttemptData slot).count + 1, lastAttempt := some now } ∧
    (recordRegisterAttempt slot now false).1
      = some { count := (getAttemptData slot).count + 1, lastAttempt := some now } ∧
    ((getAttemptData slot).count + 1 > 1 →
      (recordLoginAttempt slot now false).2
          = calculateBackoffDelay ((getAttemptData slot).count + 1) ∧
      (recordRegisterAttempt slot now false).2
          = calculateBackoffDelay ((getAttemptData slot).count + 1)) ∧
    ((getAttemptData slot).count + 1 = 1 →
      (recordLoginAttempt slot now false).2 = 0 ∧
      (recordRegisterAttempt slot now false).2 = 0) := by
  refine ⟨rfl, rfl, rfl, rfl, ?_, ?_⟩
  · intro hgt
    constructor <;>
      simp [recordLoginAttempt, recordRegisterAttempt, recordAttemptWith, hgt]
  · intro heq
    have hz : (getAttemptData slot).count = 0 := by omega
    constructor <;>
      simp [recordLoginAttempt, recordRegisterAttempt, recordAttemptWith, hz]

theorem recordAttempt_semantics_witness :
    recordLoginAttempt (some { count := 3, lastAttempt := some 0 }) 7 true = (none, 0) ∧
    (recordLoginAttempt (some { count := 3, lastAttempt := some 0 }) 7 false).2
      = calculateBackoffDelay 4 ∧
    (recordLoginAttempt none 7 false).2 = 0 :=
  ⟨(recordAttempt_semantics (some { count := 3, lastAttempt := some 0 }) 7).1,
   ((recordAttempt_semantics (some { count := 3, lastAttempt := some 0 }) 7).2.2.2.2.1
     (by decide)).1,
   ((recordAttempt_semantics none 7).2.2.2.2.2 (by decide)).1⟩

/-- C10: a stored record whose count has reached the configured maximum but
whose `lastAttempt` is absent makes the rate-limit check return not limited
without deleting the record — the limiter fails open on a missing
timestamp. -/
theorem checkRateLimit_missing_timestamp_fails_open (c now : Nat) :
    (c ≥ RATE_LIMIT_CONFIG.MAX_LOGIN_ATTEMPTS →
      checkLoginRateLimit (some { count := c, lastAttempt := none }) now
        = ({ isLimited := false, waitTime := 0, message := "" },
           some { count := c, lastAttempt := none })) ∧
    (c ≥ RATE_LIMIT_CONFIG.MAX_REGISTER_ATTEMPTS →
      checkRegisterRateLimit (some { count := c, lastAttempt := none }) now
        = ({ isLimited := false, waitTime := 0, message := "" },
           some { count := c, lastAttempt := none })) := by
  constructor
  · intro hc
    simp [checkLoginRateLimit, checkRateLimitWith, getAttemptData, hc]
  · intro hc
    simp [checkRegisterRateLimit, checkRateLimitWith, getAttemptData, hc]

theorem checkRateLimit_missing_timestamp_fails_open_witness :
    checkLoginRateLimit (some { count := 9, lastAttempt := none }) 0
      = ({ isLimited := false, waitTime := 0, message := "" },
         some { count := 9, lastAttempt := none }) ∧
    checkRegisterRateLimit (some { count := 9, lastAttempt := none }) 0
      = ({ isLimited := false, waitTime := 0, message := "" },
         some { count := 9, lastAttempt := none }) :=
  ⟨(checkRateLimit_missing_timestamp_fails_open 9 0).1 (by decide),
   (checkRateLimit_missing_timestamp_fails_open 9 0).2 (by decide)⟩

end OAuthTemplate
namespace OAuthTemplate

/-- C3 counterexample: on a backend whose primitives all throw,
`removeSecureItem` propagates the backend error to the caller instead of
resolving as a no-op. -/
theorem removeSecureItem_propagates_failure :
    removeSecureItem failingBackend "auth_access_token"
      = Except.error "backend failure" := rfl

/-- C3 amended: `getSecureItem` never propagates an exception and resolves
to absent on a backend failure, while both `setSecureItem` and
`removeSecureItem` propagate a backend failure to the caller. -/
theorem secureItem_error_policy (b : Backend) (key value : String) :
    (∀ e, getSecureItem b key ≠ Except.error e) ∧
    (∀ e, b.getErr key = some e → getSecureItem b key = Except.ok none) ∧
    (∀ e, b.setErr key = some e → setSecureItem b key value = Except.error e) ∧
    (∀ e, b.removeErr key = some e → removeSecureItem b key = Except.error e) := by
  refine ⟨?_, ?_, ?_, ?_⟩
  · intro e
    unfold getSecureItem backendGetItem
    cases b.getErr key <;> simp
  · intro e he
    unfold getSecureItem backendGetItem
    rw [he]
  · intro e he
    unfold setSecureItem backendSetItem
    rw [he]
  · intro e he
    unfold removeSecureItem backendRemoveItem
    rw [he]

theorem secureItem_error_policy_witness :
    getSecureItem failingBackend "k" = Except.ok none ∧
    setSecureItem failingBackend "k" "v" = Except.error "backend failure" ∧
    removeSecureItem failingBackend "k" = Except.error "backend failure" :=
  ⟨(secureItem_error_policy failingBackend "k" "v").2.1 "backend failure" rfl,
   (secureItem_error_policy failingBackend "k" "v").2.2.1 "backend failure" rfl,
   (secureItem_error_policy failingBackend "k" "v").2.2.2 "backend failure" rfl⟩

/-- C7: when the backend reads on the token keys do not fail and
`storeTokens(a, r)` succeeds, a subsequent `getTokens()` returns exactly
`{accessToken: a, refreshToken: r}`. -/
theorem storeTokens_getTokens_roundtrip (b b3 : Backend)
    (accessToken refreshToken nowIso : String)
    (hga : b.getErr STORAGE_KEYS.ACCESS_TOKEN = none)
    (hgr : b.getErr STORAGE_KEYS.REFRESH_TOKEN = none)
    (h : storeTokens b accessToken refreshToken nowIso = Except.ok b3) :
    getTokens b3 = (some accessToken, some refreshToken) := by
  unfold storeTokens at h
  rcases h1 : setSecureItem b STORAGE_KEYS.ACCESS_TOKEN accessToken with e1 | b1
  · rw [h1] at h; simp only [bind, Except.bind] at h; cases h
  · rw [h1] at h; simp only [bind, Except.bind] at h
    rcases h2 : setSecureItem b1 STORAGE_KEYS.REFRESH_TOKEN refreshToken with e2 | b2
    · rw [h2] at h; simp only [bind, Except.bind] at h; cases h
    · rw [h2] at h; simp only [bind, Except.bind] at h
      rcases h3 : setSecureItem b2 STORAGE_KEYS.LAST_LOGIN nowIso with e3 | b4
      · rw [h3] at h; simp only [bind, Except.bind] at h; cases h
      · rw [h3] at h
        simp only [bind, Except.bind, pure, Except.pure, Except.ok.injEq] at h
        subst h
        obtain ⟨hs1, hg1, _, _⟩ := setSecureItem_ok h1
        obtain ⟨hs2, hg2, _, _⟩ := setSecureItem_ok h2
        obtain ⟨hs3, hg3, _, _⟩ := setSecureItem_ok h3
        have hka : b4.getErr STORAGE_KEYS.ACCESS_TOKEN = none := by
          rw [hg3, hg2, hg1]; exact hga
        have hkr : b4.getErr STORAGE_KEYS.REFRESH_TOKEN = none := by
          rw [hg3, hg2, hg1]; exact hgr
        have hva : b4.store STORAGE_KEYS.ACCESS_TOKEN = some accessToken := by
          rw [hs3, hs2, hs1]
          simp [STORAGE_KEYS]
        have hvr : b4.store STORAGE_KEYS.REFRESH_TOKEN = some refreshToken := by
          rw [hs3, hs2]
          simp [STORAGE_KEYS]
        unfold getTokens getSecureItem backendGetItem
        rw [hka, hkr, hva, hvr]

theorem storeTokens_getTokens_roundtrip_witness :
    getTokens populatedBackendTokens = (some "a", some "r") :=
  storeTokens_getTokens_roundtrip populatedBackend populatedBackendTokens
    "a" "r" "iso" rfl rfl rfl

/-- C8: a successful `clearAuthData()` leaves both tokens and the stored
user profile absent: `getTokens()` returns `{null, null}` and
`getUserData()` returns `null`. -/
theorem clearAuthData_then_absent (b b4 : Backend)
    (h : clearAuthData b = Except.ok b4) :
    getTokens b4 = (none, none) ∧ getUserData b4 = none := by
  unfold clearAuthData at h
  rcases h1 : removeSecureItem b STORAGE_KEYS.ACCESS_TOKEN with e1 | b1
  · rw [h1] at h; simp only [bind, Except.bind] at h; cases h
  · rw [h1] at h; simp only [bind, Except.bind] at h
    rcases h2 : removeSecureItem b1 STORAGE_KEYS.REFRESH_TOKEN with e2 | b2
    · rw [h2] at h; simp only [bind, Except.bind] at h; cases h
    · rw [h2] at h; simp only [bind, Except.bind] at h
      rcases h3 : removeSecureItem b2 STORAGE_KEYS.USER_DATA with e3 | b3
      · rw [h3] at h; simp only [bind, Except.bind] at h; cases h
      · rw [h3] at h; simp only [bind, Except.bind] at h
        rcases h4 : removeSecureItem b3 STORAGE_KEYS.LAST_LOGIN with e4 | b5
        · rw [h4] at h; simp only [bind, Except.bind] at h; cases h
        · rw [h4] at h
          simp only [bind, Except.bind, pure, Except.pure, Except.ok.injEq] at h
          subst h
          obtain ⟨hs1, _, _, _⟩ := removeSecureItem_ok h1
          obtain ⟨hs2, _, _, _⟩ := removeSecureItem_ok h2
          obtain ⟨hs3, _, _, _⟩ := removeSecureItem_ok h3
          obtain ⟨hs4, _, _, _⟩ := removeSecureItem_ok h4
          have hva : b5.store STORAGE_KEYS.ACCESS_TOKEN = none := by
            rw [hs4, hs3, hs2, hs1]
            simp [STORAGE_KEYS]
          have hvr : b5.store STORAGE_KEYS.REFRESH_TOKEN = none := by
            rw [hs4, hs3, hs2]
            simp [STORAGE_KEYS]
          have hvu : b5.store STORAGE_KEYS.USER_DATA = none := by
            rw [hs4, hs3]
            simp [STORAGE_KEYS]
          refine ⟨?_, ?_⟩
          · unfold getTokens getSecureItem backendGetItem
            cases hea : b5.getErr STORAGE_KEYS.ACCESS_TOKEN <;>
              cases her : b5.getErr STORAGE_KEYS.REFRESH_TOKEN <;>
                simp [hva, hvr]
          · unfold getUserData getSecureItem backendGetItem
            cases heu : b5.getErr STORAGE_KEYS.USER_DATA <;> simp [hvu]

theorem clearAuthData_then_absent_witness :
    getTokens populatedBackendCleared = (none, none) ∧
    getUserData populatedBackendCleared = none :=
  clearAuthData_then_absent populatedBackend populatedBackendCleared rfl

end OAuthTemplate
